import Mathlib

/-!
# Fluid-OS: shallow embedding of the blueprint mutation / rendering core

This file embeds, in Lean, the data model and the operations of the
Fluid-OS repository that the frozen claims are about:

* the "self-healing" data-mutation engine of `src/unnamed/part_001`
  (`findBestKey`, `handleAppAction`, the timer tick effect);
* the `executeTool` engine and `$INPUT:` resolution of `src/unnamed/part_002`;
* the blueprint normalizer and fallback renderer of `src/unnamed/part_004`
  (`normalizeBlueprint`, `renderComponent`);
* the block renderer of `src/src/A2UIRenderer.js` (`renderBlocks`).

JavaScript data bags are modelled as insertion-ordered association lists of
string keys and `JSValue`s.  JS numbers are modelled at integer precision
(every numeric literal occurring in the repository and in the claims is an
integer); `NaN` is a distinguished numeric value, and a stored `undefined`
is a distinguished non-value, mirroring `typeof` / truthiness semantics.
-/

namespace FluidOS

/-- One checklist item, as produced by `ADD_CHECKLIST_ITEM` in
`src/unnamed/part_001` (`{ label, checked, id: Date.now() }`) or supplied in a
model response's `initial_state`.  `label` is optional because
`EDIT_CHECKLIST_ITEM` assigns `payload.value` to it without a default, and
`id` is optional because schema-supplied items carry no id. -/
structure Item where
  label : Option String
  checked : Bool
  id : Option Int
deriving DecidableEq, Repr

/-- A JavaScript value stored in an app's `data` bag.  `nan` is the IEEE NaN
(for which `typeof` is still `"number"`), `undefined` is a stored `undefined`
(a property that exists but compares `=== undefined`). -/
inductive JSValue where
  | num (n : Int)
  | nan
  | bool (b : Bool)
  | str (s : String)
  | list (items : List Item)
  | undefined
deriving DecidableEq, Repr

/-- A data bag: a JavaScript object, modelled as an insertion-ordered
association list.  Keys are unique in every bag arising from the code. -/
abbrev Bag := List (String × JSValue)

namespace JSValue

/-- `typeof v === "number"` (true for NaN as well). -/
def isNumber : JSValue → Bool
  | num _ => true
  | nan => true
  | _ => false

/-- `typeof v === "boolean"`. -/
def isBool : JSValue → Bool
  | bool _ => true
  | _ => false

/-- `Array.isArray(v)`. -/
def isList : JSValue → Bool
  | list _ => true
  | _ => false

/-- JavaScript truthiness of a stored value: `0`, `NaN`, `false`, `""`,
`undefined` are falsy; every number other than 0, every nonempty string,
`true` and every array (even `[]`) are truthy. -/
def truthy : JSValue → Bool
  | num n => n ≠ 0
  | nan => false
  | bool b => b
  | str s => s ≠ ""
  | list _ => true
  | undefined => false

/-- `Number(v)` coercion restricted to the value forms of this model:
numbers are themselves, booleans are 1/0, `undefined` is NaN, `[]` is 0 and
a nonempty array of items is NaN (`[object Object]` does not parse).
Strings are parsed by `jsStrToNum` below. -/
def toNum (strToNum : String → JSValue) : JSValue → JSValue
  | num n => num n
  | nan => nan
  | bool b => num (if b then 1 else 0)
  | str s => strToNum s
  | list [] => num 0
  | list (_ :: _) => nan
  | undefined => nan

end JSValue

/-- Character-level prefix test (`charsMatch pre s` is true when `pre` is an
initial segment of `s`). -/
def charsMatch : List Char → List Char → Bool
  | [], _ => true
  | _ :: _, [] => false
  | p :: ps, c :: cs => p == c && charsMatch ps cs

/-- `s.startsWith(pre)` on strings, by characters. -/
def strStartsWith (s pre : String) : Bool :=
  charsMatch pre.data s.data

/-- Drop the first `n` characters of a string (every placeholder handled by
the code is ASCII, so characters coincide with what JS slices). -/
def strDrop (s : String) (n : Nat) : String :=
  String.mk (s.data.drop n)

/-- `s.trim()`: strip leading and trailing whitespace. -/
def jsTrim (s : String) : String :=
  String.mk (((s.data.dropWhile Char.isWhitespace).reverse.dropWhile
    Char.isWhitespace).reverse)

/-- Integer value of a run of decimal digits. -/
def digitsVal (l : List Char) : Int :=
  l.foldl (fun a c => a * 10 + ((c.toNat - '0'.toNat : Nat) : Int)) 0

/-- `Number(s)` for a string: leading/trailing whitespace is ignored, the
empty (or all-whitespace) string is 0, an optionally signed run of digits is
its integer value, anything else is NaN.  (JS also accepts fractional and
exponent forms; the repository only ever stores integers, so those forms are
modelled as NaN — no claim exercises them.) -/
def jsStrToNum (s : String) : JSValue :=
  let t := (s.data.dropWhile Char.isWhitespace).reverse.dropWhile Char.isWhitespace
    |>.reverse
  if t = [] then .num 0
  else
    let (sign, digits) :=
      match t with
      | '-' :: rest => ((-1 : Int), rest)
      | '+' :: rest => ((1 : Int), rest)
      | _ => ((1 : Int), t)
    if digits ≠ [] ∧ digits.all Char.isDigit then .num (sign * digitsVal digits)
    else .nan

/-- `Number(v)` over all modelled value forms. -/
def jsToNum (v : JSValue) : JSValue := v.toNum jsStrToNum

/-- JS `+` restricted to numeric operands (either side NaN gives NaN). -/
def jsAdd : JSValue → JSValue → JSValue
  | .num a, .num b => .num (a + b)
  | _, _ => .nan

/-- First binding of key `k` in a bag (`obj[k]`; `none` = property absent). -/
def getKey : Bag → String → Option JSValue
  | [], _ => none
  | (k', v) :: rest, k => if k' = k then some v else getKey rest k

/-- `obj[k] !== undefined`: the property is present and its value is not a
stored `undefined`. -/
def isDef (bag : Bag) (k : String) : Bool :=
  match getKey bag k with
  | some v => v ≠ JSValue.undefined
  | none => false

/-- `obj[k] = v`: update the binding in place if the key is present
(preserving enumeration order), otherwise append it at the end — JS object
assignment semantics. -/
def jsSet : Bag → String → JSValue → Bag
  | [], k, v => [(k, v)]
  | (k', v') :: rest, k, v =>
      if k' = k then (k, v) :: rest else (k', v') :: jsSet rest k v

/-- `o || d` for an optional string operand (`undefined`, `null` and `""`
are falsy). -/
def jsOrStr (o : Option String) (d : String) : String :=
  match o with
  | some s => if s = "" then d else s
  | none => d

/-- `o || d` for an optional number operand (`undefined`, `null` and `0`
are falsy). -/
def jsOrInt (o : Option Int) (d : Int) : Int :=
  match o with
  | some n => if n = 0 then d else n
  | none => d

/-! ## The mutation engine of `src/unnamed/part_001` -/

/-- The action payload produced by a rendered control, per the response
schema of `src/unnamed/part_001` (`key`, `amount`, `value`, `index`,
`initialValue`, each nullable).  `none` models both an absent and a `null`
field — the two are interchangeable in every `||` / indexing use site. -/
structure Payload where
  key : Option String := none
  amount : Option Int := none
  value : Option String := none
  index : Option Int := none
  initialValue : Option Int := none
deriving DecidableEq, Repr

/-- The type test used by `findBestKey`'s fallback search:
`Array.isArray` for `'array'`, `typeof === 'number'` for `'number'`,
`typeof === 'boolean'` for `'boolean'`, false for any other tag. -/
def typeMatches (ty : String) (v : JSValue) : Bool :=
  if ty = "array" then v.isList
  else if ty = "number" then v.isNumber
  else if ty = "boolean" then v.isBool
  else false

/-- `findBestKey` of `src/unnamed/part_001` (lines 137–151):
1. if the requested key is present (`!== undefined`), use it;
2. else take the first key whose current value's type matches `ty`
   (`"array"`, `"number"` or `"boolean"`);
3. else fall back to the requested key.
The `fallback || requestedKey` in the source also discards a found key that
is the empty string (a falsy key name). -/
def findBestKey (bag : Bag) (requestedKey ty : String) : String :=
  if isDef bag requestedKey then requestedKey
  else
    match bag.find? (fun p => typeMatches ty p.2) with
    | some (k, _) => if k = "" then requestedKey else k
    | none => requestedKey

/-- The `INCREMENT_COUNT` branch: resolve a numeric key, force-create it as
0 if still missing, then `newData[key] = Number(newData[key]) + (payload.amount || 1)`. -/
def incrementStep (payload : Payload) (d : Bag) : Bag :=
  let key := findBestKey d (jsOrStr payload.key "count") "number"
  let d := if isDef d key then d else jsSet d key (.num 0)
  jsSet d key (jsAdd (jsToNum ((getKey d key).getD .undefined)) (.num (jsOrInt payload.amount 1)))

/-- The `START_TIMER` branch. -/
def startTimerStep (d : Bag) : Bag :=
  jsSet (jsSet d "is_running" (.bool true)) "finished" (.bool false)

/-- The `STOP_TIMER` branch. -/
def stopTimerStep (d : Bag) : Bag :=
  jsSet d "is_running" (.bool false)

/-- The `RESET_TIMER` branch: clear both flags, then resolve a numeric key
(against the already-updated bag, as in the source) and set it to
`payload.initialValue || 0`.  The source guards `if (key)`, so an
empty-string resolved key would be skipped. -/
def resetTimerStep (payload : Payload) (d : Bag) : Bag :=
  let d := jsSet (jsSet d "is_running" (.bool false)) "finished" (.bool false)
  let key := findBestKey d (jsOrStr payload.key "time_remaining") "number"
  if key = "" then d else jsSet d key (.num (jsOrInt payload.initialValue 0))

/-- The `ADD_CHECKLIST_ITEM` branch: resolve a list key, replace a non-array
value by `[]` ("self-healing"), then append
`{ label: payload.value || "New Item", checked: false, id: Date.now() }`.
`now` stands for the `Date.now()` call. -/
def addChecklistStep (payload : Payload) (now : Int) (d : Bag) : Bag :=
  let key := findBestKey d (jsOrStr payload.key "items") "array"
  let d := if ((getKey d key).getD .undefined).isList then d else jsSet d key (.list [])
  let old := match getKey d key with
    | some (.list l) => l
    | _ => []
  jsSet d key (.list (old ++ [⟨some (jsOrStr payload.value "New Item"), false, some now⟩]))

/-- `updatedList[i].checked = !updatedList[i].checked` on an in-range index. -/
def listToggle (l : List Item) (i : Int) : List Item :=
  if 0 ≤ i ∧ i < (l.length : Int) then
    match l.get? i.toNat with
    | some it => l.set i.toNat { it with checked := !it.checked }
    | none => l
  else l

/-- `updatedList[i].label = v` on an in-range index. -/
def listEdit (l : List Item) (i : Int) (v : Option String) : List Item :=
  if 0 ≤ i ∧ i < (l.length : Int) then
    match l.get? i.toNat with
    | some it => l.set i.toNat { it with label := v }
    | none => l
  else l

/-- `list.splice(idx, 1)`: JS normalizes an undefined start to 0, clamps a
negative start to `max (length + idx) 0` and a large start to `length`, then
removes (at most) one element at that position. -/
def jsSplice1 (l : List Item) (idx : Option Int) : List Item :=
  let i : Int := idx.getD 0
  let start : Int := if i < 0 then max ((l.length : Int) + i) 0 else min i (l.length : Int)
  l.eraseIdx start.toNat

/-- The `TOGGLE_CHECKLIST_ITEM` branch.  The source guard is
`Array.isArray(newData[key]) && newData[key][payload.index]`; since every
array element is an item object (truthy), the second conjunct is exactly an
in-range index check, and an absent `payload.index` indexes as `undefined`
(falsy). -/
def toggleChecklistStep (payload : Payload) (d : Bag) : Bag :=
  let key := findBestKey d (jsOrStr payload.key "items") "array"
  match getKey d key, payload.index with
  | some (.list l), some i =>
      if 0 ≤ i ∧ i < (l.length : Int) then jsSet d key (.list (listToggle l i)) else d
  | _, _ => d

/-- The `DELETE_CHECKLIST_ITEM` branch: guarded only by `Array.isArray`,
then `splice(payload.index, 1)`. -/
def deleteChecklistStep (payload : Payload) (d : Bag) : Bag :=
  let key := findBestKey d (jsOrStr payload.key "items") "array"
  match getKey d key with
  | some (.list l) => jsSet d key (.list (jsSplice1 l payload.index))
  | _ => d

/-- The `EDIT_CHECKLIST_ITEM` branch (same guard as toggle); assigns
`payload.value` to the item's label with no default. -/
def editChecklistStep (payload : Payload) (d : Bag) : Bag :=
  let key := findBestKey d (jsOrStr payload.key "items") "array"
  match getKey d key, payload.index with
  | some (.list l), some i =>
      if 0 ≤ i ∧ i < (l.length : Int) then jsSet d key (.list (listEdit l i payload.value)) else d
  | _, _ => d

/-- The data-bag transformation performed by `handleAppAction` of
`src/unnamed/part_001` (lines 127–225) on the active app's `data`: the
source copies `data`, then runs a sequence of independent
`if (actionType === …)` blocks (their conditions are mutually exclusive)
and stores the result back into the app.  `now` models `Date.now()`. -/
def handleAppAction (actionType : String) (payload : Payload) (now : Int) (data : Bag) : Bag :=
  let d := data
  let d := if actionType = "INCREMENT_COUNT" then incrementStep payload d else d
  let d := if actionType = "START_TIMER" then startTimerStep d else d
  let d := if actionType = "STOP_TIMER" then stopTimerStep d else d
  let d := if actionType = "RESET_TIMER" then resetTimerStep payload d else d
  let d := if actionType = "ADD_CHECKLIST_ITEM" then addChecklistStep payload now d else d
  let d := if actionType = "TOGGLE_CHECKLIST_ITEM" then toggleChecklistStep payload d else d
  let d := if actionType = "DELETE_CHECKLIST_ITEM" then deleteChecklistStep payload d else d
  let d := if actionType = "EDIT_CHECKLIST_ITEM" then editChecklistStep payload d else d
  d

/-- The closed catalogue of action names handled by `handleAppAction`. -/
def actionCatalogue : List String :=
  ["INCREMENT_COUNT", "START_TIMER", "STOP_TIMER", "RESET_TIMER",
   "ADD_CHECKLIST_ITEM", "TOGGLE_CHECKLIST_ITEM", "DELETE_CHECKLIST_ITEM",
   "EDIT_CHECKLIST_ITEM"]

/-! ## The timer heartbeat of `src/unnamed/part_001` (lines 96–122) -/

/-- A persisted app, restricted to the fields the tick effect reads. -/
structure App where
  id : Int
  title : String
  archetype : String
  data : Bag
deriving DecidableEq, Repr

/-- One tick applied to one stored app: if the app is a running `Regulator`,
find the first numeric-valued key (`typeof === 'number'`); decrement it while
positive, otherwise clear `is_running` and set `finished`.  Apps failing any
of the guards are returned as-is. -/
def tickApp (app : App) : App :=
  if app.archetype = "Regulator" ∧ ((getKey app.data "is_running").getD .undefined).truthy then
    match app.data.find? (fun p => p.2.isNumber) with
    | some (k, v) =>
        if (match v with | .num n => decide (0 < n) | _ => false) then
          { app with data := jsSet app.data k (jsAdd v (.num (-1))) }
        else
          { app with
            data := jsSet (jsSet app.data "is_running" (.bool false)) "finished" (.bool true) }
    | none => app
  else app

/-- One interval firing of the heartbeat: `setApps(prev => prev.map(…))`. -/
def tickApps (apps : List App) : List App := apps.map tickApp

/-! ## The tool executor of `src/unnamed/part_002` (lines 160–182) -/

/-- A tool payload for `executeTool`: `{ key, operation, value }` (value is
any JSON value, possibly a `$INPUT:` placeholder string). -/
structure TPayload where
  key : Option String := none
  operation : Option String := none
  value : Option JSValue := none
deriving DecidableEq, Repr

/-- The ephemeral form state: `input-id -> currently typed string`. -/
abbrev FormState := List (String × String)

/-- `formState[id]` (first binding; `none` = never typed). -/
def lookupFS : FormState → String → Option String
  | [], _ => none
  | (k, v) :: rest, id => if k = id then some v else lookupFS rest id

/-- Resolution of a `$INPUT:` placeholder payload value against the form
state, from `executeTool`: a string value starting with `"$INPUT:"` is
replaced by the typed value for the referenced input id (numeric-parsed
when `Number` succeeds, kept as a string otherwise); if that input is unset
or trims to the empty string the whole operation aborts (`none`).
Non-placeholder values pass through. -/
def resolveInputValue (v : Option JSValue) (formState : FormState) :
    Option (Option JSValue) :=
  match v with
  | some (.str s) =>
      if strStartsWith s "$INPUT:" then
        let inputId := strDrop s 7
        match lookupFS formState inputId with
        | none => none
        | some typed =>
            if jsTrim typed = "" then none
            else some (some (match jsStrToNum typed with | .nan => .str typed | n => n))
      else some v
  | _ => some v

/-- A possibly-absent value read as a JS expression: absence is `undefined`. -/
def orUndefined : Option JSValue → JSValue
  | some v => v
  | none => .undefined

/-- A possibly-absent property name used as an index: JS coerces `undefined`
to the string `"undefined"`. -/
def orUndefinedKey : Option String → String
  | some k => k
  | none => "undefined"

/-- `executeTool` of `src/unnamed/part_002`: copy the bag, bail out on a
missing payload, resolve a `$INPUT:` placeholder (returning the original
`currentData` untouched when the referenced input is unset/blank), then run
the `update_data` / `reset_data` branches; any other tool name falls
through, returning the (unchanged) copy. -/
def executeTool (toolName : String) (payload : Option TPayload) (currentData : Bag)
    (formState : FormState) : Bag :=
  let newData := currentData
  match payload with
  | none => newData
  | some p =>
    match resolveInputValue p.value formState with
    | none => currentData
    | some fv =>
      let newData :=
        if toolName = "update_data" then
          let k := orUndefinedKey p.key
          if p.operation = some "add" then
            -- (Number(newData[key]) || 0) + Number(finalValue)
            let base : Int :=
              match jsToNum (orUndefined (getKey newData k)) with
              | .num n => n
              | _ => 0
            jsSet newData k (jsAdd (.num base) (jsToNum (orUndefined fv)))
          else if p.operation = some "set" then
            jsSet newData k (orUndefined fv)
          else newData
        else newData
      let newData :=
        if toolName = "reset_data" then
          -- finalValue !== undefined ? finalValue : payload.value
          jsSet newData (orUndefinedKey p.key)
            (match fv with | some v => v | none => orUndefined p.value)
        else newData
      newData

/-! ## The blueprint normalizer and renderer of `src/unnamed/part_004` -/

/-- The property fields inspected by `normalizeBlueprint`: the canonical
`actions`, its synonyms `buttons`/`btns`, and the mirrored pair
`content`/`text`.  Property values are modelled by `JSValue` (the
normalizer only moves them and tests truthiness). -/
structure BProps where
  actions : Option JSValue := none
  buttons : Option JSValue := none
  btns : Option JSValue := none
  content : Option JSValue := none
  text : Option JSValue := none
deriving DecidableEq, Repr

/-- Truthiness of a possibly-absent property. -/
def truthyO : Option JSValue → Bool
  | some v => v.truthy
  | none => false

mutual
/-- A blueprint node of `src/unnamed/part_004`: `null` (or a `null` array
entry), or a node with an optional `type` tag, optional `props` and
optional `children`. -/
inductive BNode where
  | null : BNode
  | node (type : Option String) (props : Option BProps) (children : Option BNodeList) : BNode
inductive BNodeList where
  | nil : BNodeList
  | cons (head : BNode) (tail : BNodeList) : BNodeList
end

/-- Step 1 of the normalizer: fold type-tag synonyms —
`ButtonList`/`Buttons` become `ButtonRow`, then `Paragraph`/`Span`/`Label`
become `Text` (two sequential `if`s in the source). -/
def fixType (t : Option String) : Option String :=
  let t := if t = some "ButtonList" ∨ t = some "Buttons" then some "ButtonRow" else t
  if t = some "Paragraph" ∨ t = some "Span" ∨ t = some "Label" then some "Text" else t

/-- `if (node.props.buttons) { node.props.actions = node.props.buttons;
delete node.props.buttons; }` -/
def moveButtons (p : BProps) : BProps :=
  if truthyO p.buttons then { p with actions := p.buttons, buttons := none } else p

/-- `if (node.props.btns) { node.props.actions = node.props.btns;
delete node.props.btns; }` -/
def moveBtns (p : BProps) : BProps :=
  if truthyO p.btns then { p with actions := p.btns, btns := none } else p

/-- `if (node.props.content && !node.props.text) node.props.text =
node.props.content;` -/
def mirrorContent (p : BProps) : BProps :=
  if truthyO p.content && !truthyO p.text then { p with text := p.content } else p

/-- `if (node.props.text && !node.props.content) node.props.content =
node.props.text;` -/
def mirrorText (p : BProps) : BProps :=
  if truthyO p.text && !truthyO p.content then { p with content := p.text } else p

/-- Step 2 of the normalizer: move a truthy `buttons` (then `btns`) into
`actions` deleting the source property, then mirror `content` into `text`
(and back) when exactly one of the pair is truthy — the source's four
sequential `if` statements, applied in order. -/
def fixProps (p : BProps) : BProps :=
  mirrorText (mirrorContent (moveBtns (moveButtons p)))

mutual
/-- `normalizeBlueprint` of `src/unnamed/part_004` (lines 6–36): a `null`
node stays `null`; otherwise fix the type tag, fix the props when present
(a props object is always truthy), and recurse into the children array when
present (an empty array is truthy in JS, so `some nil` is still mapped). -/
def normalizeBlueprint : BNode → BNode
  | .null => .null
  | .node t p c =>
      .node (fixType t)
        (match p with | some pr => some (fixProps pr) | none => none)
        (match c with | some cs => some (normalizeChildren cs) | none => none)
def normalizeChildren : BNodeList → BNodeList
  | .nil => .nil
  | .cons h tl => .cons (normalizeBlueprint h) (normalizeChildren tl)
end

/-- The component registry of `src/unnamed/part_004` (the keys of
`ComponentRegistry`). -/
def componentRegistry : List String := ["Card", "Text", "Gauge", "ButtonRow", "Chart"]

mutual
/-- The rendered output of `renderComponent`: nothing (a `null` render), the
red "Unknown Component" diagnostic placeholder, or a registry component
instantiated with the node's props and its rendered children. -/
inductive ROut where
  | nothing : ROut
  | unknown (t : Option String) : ROut
  | comp (name : String) (props : Option BProps) (children : Option ROutList) : ROut
inductive ROutList where
  | nil : ROutList
  | cons (head : ROut) (tail : ROutList) : ROutList
end

mutual
/-- `renderComponent` of `src/unnamed/part_004` (lines 117–138): a falsy
node renders nothing; a node whose type is not a registry key (including an
absent type) renders the visible "Unknown Component: {type}" diagnostic and
returns before touching children; otherwise the registry component is
rendered with the node's props and recursively rendered children. -/
def renderComponent : BNode → ROut
  | .null => .nothing
  | .node t p c =>
      match t with
      | some tag =>
          if tag ∈ componentRegistry then
            .comp tag p (match c with | some cs => some (renderChildren cs) | none => none)
          else .unknown (some tag)
      | none => .unknown none
def renderChildren : BNodeList → ROutList
  | .nil => .nil
  | .cons h tl => .cons (renderComponent h) (renderChildren tl)
end

/-- View a `BNodeList` as a Lean list (for stating elementwise lemmas). -/
def BNodeList.toList : BNodeList → List BNode
  | .nil => []
  | .cons h tl => h :: tl.toList

/-- Build a `BNodeList` from a Lean list. -/
def BNodeList.ofList : List BNode → BNodeList
  | [] => .nil
  | h :: tl => .cons h (BNodeList.ofList tl)

/-- View an `ROutList` as a Lean list. -/
def ROutList.toList : ROutList → List ROut
  | .nil => []
  | .cons h tl => h :: tl.toList

/-! ## The block renderer of `src/src/A2UIRenderer.js` -/

mutual
/-- One block of a `blueprint.blocks` array, restricted to the fields the
renderer and its components consume: the type tag `t` and the props spread
into the resolved component.  (The `columns`/`sub`/`max` style props only
pick CSS classes and are omitted as cosmetic.) -/
inductive Block where
  | mk (t : String) (label : Option String) (variant : Option String)
      (title : Option String) (icon : Option String) (id : Option String)
      (placeholder : Option String) (value : Option JSValue)
      (onClick : Option String) (children : Option BlockList) : Block
inductive BlockList where
  | nil : BlockList
  | cons (head : Block) (tail : BlockList) : BlockList
end

/-- The type tag of a block. -/
def Block.t : Block → String
  | .mk t _ _ _ _ _ _ _ _ _ => t

/-- The `label` prop of a block. -/
def Block.label : Block → Option String
  | .mk _ l _ _ _ _ _ _ _ _ => l

/-- The `variant` prop of a block. -/
def Block.variant : Block → Option String
  | .mk _ _ v _ _ _ _ _ _ _ => v

/-- The keys of the `COMPONENTS` registry in `src/src/A2UIRenderer.js`. -/
def srcComponents : List String :=
  ["Header", "Card", "Grid", "Stat", "Chart", "DataList", "Select", "Input",
   "Btn", "Text", "Divider"]

mutual
/-- The visual output of one rendered block: each constructor records the
props its component actually reads (its internal markup is cosmetic).
`Text` is modelled exactly, since it doubles as the unknown-tag fallback:
a falsy label renders nothing, otherwise a paragraph whose styling depends
only on whether `variant === 'caption'`. -/
inductive Visual where
  | vnull : Visual
  | para (caption : Bool) (content : String) : Visual
  | header (label : Option String) (icon : Option String) : Visual
  | card (title : Option String) (body : Option VisualList) : Visual
  | grid (body : Option VisualList) : Visual
  | stat (label : Option String) (value : JSValue) : Visual
  | chart (data : Option JSValue) : Visual
  | dataList (data : Option JSValue) (dataKey : Option String) : Visual
  | select (id : Option String) (label : Option String) (value : Option String) : Visual
  | inputBox (id : Option String) (label : Option String) (placeholder : Option String)
      (value : Option String) : Visual
  | btn (label : Option String) (onClick : Option String) (variant : Option String)
      (icon : Option String) : Visual
  | divider : Visual
inductive VisualList where
  | nil : VisualList
  | cons (head : Visual) (tail : VisualList) : VisualList
end

/-- The `Text` component of `src/src/A2UIRenderer.js` (lines 162–165):
`if (!label) return null`, else a paragraph of the label, styled as a
caption iff `variant === 'caption'`. -/
def TextComp (label variant : Option String) : Visual :=
  match label with
  | some s => if s = "" then .vnull else .para (variant = some "caption") s
  | none => .vnull

/-- The `Stat` component: `if (value === undefined) return null`. -/
def StatComp (label : Option String) (value : Option JSValue) : Visual :=
  match value with
  | some v => if v = .undefined then .vnull else .stat label v
  | none => .vnull

mutual
/-- One step of `renderBlocks` of `src/src/A2UIRenderer.js` (lines 173–189)
for a single block: `const Component = COMPONENTS[block.t] || COMPONENTS.Text`
— a recognized tag resolves its component, any other tag falls back to the
`Text` component, which receives the block's props untouched.  `Input` and
`Select` read their value from the form state instead of the block. -/
def renderBlock (formState : FormState) : Block → Visual
  | .mk t label variant title icon id placeholder value onClick children =>
    if t = "Header" then .header label icon
    else if t = "Card" then
      .card title (match children with | some cs => some (renderBlockList formState cs) | none => none)
    else if t = "Grid" then
      .grid (match children with | some cs => some (renderBlockList formState cs) | none => none)
    else if t = "Stat" then StatComp label value
    else if t = "Chart" then .chart value
    else if t = "DataList" then .dataList value none
    else if t = "Select" then .select id label (lookupFS formState (orUndefinedKey id))
    else if t = "Input" then
      .inputBox id label placeholder (lookupFS formState (orUndefinedKey id))
    else if t = "Btn" then .btn label onClick variant icon
    else if t = "Text" then TextComp label variant
    else if t = "Divider" then .divider
    else TextComp label variant
def renderBlockList (formState : FormState) : BlockList → VisualList
  | .nil => .nil
  | .cons h tl => .cons (renderBlock formState h) (renderBlockList formState tl)
end

/-- View a `BlockList` as a Lean list. -/
def BlockList.toList : BlockList → List Block
  | .nil => []
  | .cons h tl => h :: tl.toList

/-- View a `VisualList` as a Lean list. -/
def VisualList.toList : VisualList → List Visual
  | .nil => []
  | .cons h tl => h :: tl.toList

/-- Build a `BlockList` from a Lean list. -/
def BlockList.ofList : List Block → BlockList
  | [] => .nil
  | h :: tl => .cons h (BlockList.ofList tl)

/-! ## Helper lemmas about bags -/

theorem getKey_jsSet_self (d : Bag) (k : String) (v : JSValue) :
    getKey (jsSet d k v) k = some v := by
  induction d with
  | nil => simp [jsSet, getKey]
  | cons p rest ih =>
      obtain ⟨k0, v0⟩ := p
      by_cases h : k0 = k <;> simp [jsSet, getKey, h, ih]

theorem getKey_jsSet_ne (d : Bag) (k k' : String) (v : JSValue) (h : k' ≠ k) :
    getKey (jsSet d k v) k' = getKey d k' := by
  induction d with
  | nil => simp [jsSet, getKey, Ne.symm h]
  | cons p rest ih =>
      obtain ⟨k0, v0⟩ := p
      by_cases h0 : k0 = k <;> simp [jsSet, getKey, h0, Ne.symm h, ih]

theorem jsSet_of_getKey_eq (d : Bag) (k : String) (v : JSValue)
    (h : getKey d k = some v) : jsSet d k v = d := by
  induction d with
  | nil => simp [getKey] at h
  | cons p rest ih =>
      obtain ⟨k0, v0⟩ := p
      by_cases h0 : k0 = k
      · subst h0
        simp [getKey] at h
        simp [jsSet, h]
      · simp [getKey, h0] at h
        simp [jsSet, h0, ih h]

theorem jsSet_of_getKey_none (d : Bag) (k : String) (v : JSValue)
    (h : getKey d k = none) : jsSet d k v = d ++ [(k, v)] := by
  induction d with
  | nil => simp [jsSet]
  | cons p rest ih =>
      obtain ⟨k0, v0⟩ := p
      by_cases h0 : k0 = k
      · subst h0; simp [getKey] at h
      · simp [getKey, h0] at h
        simp [jsSet, h0, ih h]

theorem jsSet_jsSet (d : Bag) (k : String) (v w : JSValue) :
    jsSet (jsSet d k v) k w = jsSet d k w := by
  induction d with
  | nil => simp [jsSet]
  | cons p rest ih =>
      obtain ⟨k0, v0⟩ := p
      by_cases h0 : k0 = k <;> simp [jsSet, h0, ih]

theorem isDef_of_getKey_none (d : Bag) (k : String) (h : getKey d k = none) :
    isDef d k = false := by
  simp [isDef, h]

theorem find?_jsSet_none (f : String × JSValue → Bool) (d : Bag) (k : String)
    (v : JSValue) (hf : f (k, v) = false) (h : d.find? f = none) :
    (jsSet d k v).find? f = none := by
  induction d with
  | nil => simp [jsSet, List.find?, hf]
  | cons p rest ih =>
      obtain ⟨k0, v0⟩ := p
      rw [List.find?_cons] at h
      rcases hfp : f (k0, v0) with _ | _
      · rw [hfp] at h
        by_cases h0 : k0 = k
        · subst h0
          have hstep : jsSet ((k0, v0) :: rest) k0 v = (k0, v) :: rest := by simp [jsSet]
          rw [hstep, List.find?_cons, hf]
          exact h
        · simp only [jsSet, if_neg h0, List.find?_cons, hfp]
          exact ih h
      · rw [hfp] at h; simp at h

theorem findBestKey_of_isDef (d : Bag) (req ty : String) (h : isDef d req = true) :
    findBestKey d req ty = req := by
  simp [findBestKey, h]

theorem findBestKey_fallback (d : Bag) (req ty k : String) (v : JSValue)
    (h : isDef d req = false) (hf : d.find? (fun q => typeMatches ty q.2) = some (k, v))
    (hk : k ≠ "") : findBestKey d req ty = k := by
  simp [findBestKey, h, hf, hk]

theorem findBestKey_of_no_match (d : Bag) (req ty : String)
    (h : isDef d req = false) (hf : d.find? (fun q => typeMatches ty q.2) = none) :
    findBestKey d req ty = req := by
  simp [findBestKey, h, hf]

/-- `jsOrStr` never returns the empty string when its default is nonempty. -/
theorem jsOrStr_ne_empty (o : Option String) (dflt : String) (h : dflt ≠ "") :
    jsOrStr o dflt ≠ "" := by
  cases o with
  | none => simpa [jsOrStr]
  | some s => by_cases hs : s = "" <;> simp [jsOrStr, hs, h]

/-! ## Concrete fixtures -/

/-- A running Regulator app at ten remaining seconds — exactly the state the
spec's timer walkthrough reaches after reset-timer with `initialValue` 10
followed by start-timer. -/
def laundryTimer : App :=
  ⟨1, "Laundry Timer", "Regulator",
    [("time", .num 10), ("is_running", .bool true), ("finished", .bool false)]⟩

/-! ## Claim C2: increment correctness on `{count: 5}` -/

/-- Claim C2, counterexample: invoking increment-count on `{count: 5}` with
payload `{key: "missing", amount: 3}` does NOT yield `{count: 5, missing: 3}`
as the claim states — `findBestKey` falls back to the existing numeric key
`count` (step 2 of the resolution), so the result is `{count: 8}` and no
`missing` key is ever created. -/
theorem increment_missing_key_counterexample :
    handleAppAction "INCREMENT_COUNT" { key := some "missing", amount := some 3 } 0
        [("count", .num 5)]
      ≠ [("count", .num 5), ("missing", .num 3)]
    ∧ getKey (handleAppAction "INCREMENT_COUNT" { key := some "missing", amount := some 3 } 0
        [("count", .num 5)]) "missing" = none
    ∧ getKey (handleAppAction "INCREMENT_COUNT" { key := some "missing", amount := some 3 } 0
        [("count", .num 5)]) "count" = some (.num 8) := by
  decide

/-- Claim C2 (corrected): on `data = {count: 5}`, increment-count with
`{key: "count", amount: 3}` yields `{count: 8}`; increment-count with
`{key: "missing", amount: 3}` also yields `{count: 8}`, because the
self-healing fallback resolves the missing key to the existing numeric key
`count` instead of creating `missing`. -/
theorem increment_count_concrete :
    handleAppAction "INCREMENT_COUNT" { key := some "count", amount := some 3 } 0
        [("count", .num 5)] = [("count", .num 8)]
    ∧ handleAppAction "INCREMENT_COUNT" { key := some "missing", amount := some 3 } 0
        [("count", .num 5)] = [("count", .num 8)] := by
  decide

/-! ## Claim C3: the timer end-to-end walkthrough -/

/-- Claim C3, counterexample: starting from
`{time: 10, is_running: true, finished: false}`, ten consecutive tick
advances leave the data bag at `{time: 0, is_running: true, finished: false}`
— NOT `{time: 0, is_running: false, finished: true}` as the claim states.
The flags only flip on a tick that observes `time ≤ 0`, i.e. the eleventh. -/
theorem ten_ticks_counterexample :
    (tickApp^[10] laundryTimer).data
      = [("time", .num 0), ("is_running", .bool true), ("finished", .bool false)]
    ∧ (tickApp^[10] laundryTimer).data
      ≠ [("time", .num 0), ("is_running", .bool false), ("finished", .bool true)] := by
  decide

/-- Claim C3 (corrected): reset-timer with `initialValue` 10 followed by
start-timer yields `{time: 10, is_running: true, finished: false}`; ten
tick-driver advances then yield `{time: 0, is_running: true, finished: false}`
(the counter reaches zero but the flags are untouched), and one further —
eleventh — advance yields `{time: 0, is_running: false, finished: true}`. -/
theorem timer_walkthrough_corrected :
    startTimerStep (resetTimerStep { initialValue := some 10 }
        [("time", .num 0), ("is_running", .bool false), ("finished", .bool false)])
      = laundryTimer.data
    ∧ (tickApp^[10] laundryTimer).data
      = [("time", .num 0), ("is_running", .bool true), ("finished", .bool false)]
    ∧ (tickApp^[11] laundryTimer).data
      = [("time", .num 0), ("is_running", .bool false), ("finished", .bool true)] := by
  decide

/-! ## Claim C10: absent, null, or zero increment amounts default to 1 -/

/-- Claim C10: for `INCREMENT_COUNT`, a payload whose `amount` is absent (or
`null`, which shares the model `none`) or exactly 0 behaves identically to
an explicit amount of 1 — the source computes `payload.amount || 1` and both
`undefined` and `0` are falsy; in particular incrementing `{count: 5}` by an
explicit 0 yields `{count: 6}`. -/
theorem increment_amount_defaults :
    (∀ (p : Payload) (now : Int) (d : Bag),
        handleAppAction "INCREMENT_COUNT" { p with amount := none } now d
          = handleAppAction "INCREMENT_COUNT" { p with amount := some 1 } now d
      ∧ handleAppAction "INCREMENT_COUNT" { p with amount := some 0 } now d
          = handleAppAction "INCREMENT_COUNT" { p with amount := some 1 } now d)
    ∧ handleAppAction "INCREMENT_COUNT" { key := some "count", amount := some 0 } 0
        [("count", .num 5)] = [("count", .num 6)] := by
  refine ⟨fun p now d => ?_, by decide⟩
  obtain ⟨k, a, v, i, iv⟩ := p
  constructor <;> simp [handleAppAction, incrementStep, jsOrInt]

/-! ## Claim C8: operation names outside the closed catalogue -/

/-- Claim C8, counterexample: invoking the mutation engines with an
operation name outside the closed catalogue does NOT fail loudly — the
invocation is silently absorbed and the data bag comes back unchanged, in
both `handleAppAction` (part_001) and `executeTool` (part_002). -/
theorem unknown_operation_counterexample :
    handleAppAction "MAKE_A_SANDWICH" {} 0 [("count", .num 1)] = [("count", .num 1)]
    ∧ executeTool "make_a_sandwich"
        (some { key := some "x", operation := some "add", value := some (.num 1) })
        [("x", .num 1)] [] = [("x", .num 1)] := by
  decide

/-- Claim C8 (corrected): an operation name outside the closed catalogue is
silently absorbed by both mutation engines — every conditional branch is
skipped, no exception path exists, and the data bag is returned unchanged
(the opposite of the claimed loud, immediately propagating failure). -/
theorem unknown_operation_absorbed :
    (∀ (a : String) (p : Payload) (now : Int) (d : Bag),
        a ∉ actionCatalogue → handleAppAction a p now d = d)
    ∧ (∀ (t : String) (p : Option TPayload) (d : Bag) (fs : FormState),
        t ≠ "update_data" → t ≠ "reset_data" → executeTool t p d fs = d) := by
  constructor
  · intro a p now d h
    simp only [actionCatalogue, List.mem_cons, List.not_mem_nil, or_false, not_or] at h
    obtain ⟨h1, h2, h3, h4, h5, h6, h7, h8⟩ := h
    simp [handleAppAction, h1, h2, h3, h4, h5, h6, h7, h8]
  · intro t p d fs h1 h2
    cases p with
    | none => rfl
    | some pl =>
        simp only [executeTool]
        cases resolveInputValue pl.value fs with
        | none => rfl
        | some fv => simp [h1, h2]

/-- Claim C8, witness: concrete instances of the amended claim — a bogus
action name leaves a bag unchanged in both engines. -/
theorem unknown_operation_absorbed_witness :
    handleAppAction "DEFRAGMENT" {} 0 [("items", .list [])] = [("items", .list [])]
    ∧ executeTool "defragment" none [("items", .list [])] [] = [("items", .list [])] :=
  ⟨unknown_operation_absorbed.1 "DEFRAGMENT" {} 0 [("items", .list [])] (by decide),
   unknown_operation_absorbed.2 "defragment" none [("items", .list [])] [] (by decide) (by decide)⟩

/-! ## Claim C4: the unresolved-input guard -/

/-- Claim C4: whenever an operation's payload value is a `$INPUT:id`
placeholder and the form-state entry for `id` is unset or trims to the empty
string (so whitespace-only counts as empty), `executeTool` abandons the
operation and returns exactly the original data bag, whatever the tool name
and whatever the starting bag. -/
theorem unresolved_input_guard (toolName : String) (p : TPayload) (d : Bag)
    (fs : FormState) (s : String)
    (hval : p.value = some (.str s)) (hpre : strStartsWith s "$INPUT:" = true)
    (hempty : ∀ t, lookupFS fs (strDrop s 7) = some t → jsTrim t = "") :
    executeTool toolName (some p) d fs = d := by
  have hres : resolveInputValue p.value fs = none := by
    rw [hval]
    simp only [resolveInputValue, hpre, if_true]
    cases hl : lookupFS fs (strDrop s 7) with
    | none => rfl
    | some t => simp [hl, hempty t hl]
  simp [executeTool, hres]

/-- Claim C4, witness: an `update_data` add whose value references the
never-typed input `custom` leaves `{cups: 2}` untouched. -/
theorem unresolved_input_guard_witness :
    executeTool "update_data"
        (some { key := some "cups", operation := some "add",
                value := some (.str "$INPUT:custom") })
        [("cups", .num 2)] [] = [("cups", .num 2)] :=
  unresolved_input_guard "update_data"
    { key := some "cups", operation := some "add", value := some (.str "$INPUT:custom") }
    [("cups", .num 2)] [] "$INPUT:custom" rfl (by decide)
    (fun t ht => nomatch ht)

/-! ## Claim C5: out-of-range list indices -/

/-- `l.eraseIdx n = l` when the index is past the end. -/
theorem eraseIdx_of_len_le {α : Type} (l : List α) (n : Nat) (h : l.length ≤ n) :
    l.eraseIdx n = l := by
  induction l generalizing n with
  | nil => simp [List.eraseIdx]
  | cons a tl ih =>
      cases n with
      | zero => simp at h
      | succ m => simpa [List.eraseIdx] using ih m (by simpa using h)

/-- Claim C5, counterexample: `delete-list-item` with the negative (hence
out-of-range) index `-1` on a two-item list is NOT a no-op — JS
`splice(-1, 1)` counts from the end of the array and removes the last
item. -/
theorem delete_negative_index_counterexample :
    handleAppAction "DELETE_CHECKLIST_ITEM" { key := some "items", index := some (-1) } 0
        [("items", .list [⟨some "a", false, none⟩, ⟨some "b", false, none⟩])]
      = [("items", .list [⟨some "a", false, none⟩])]
    ∧ handleAppAction "DELETE_CHECKLIST_ITEM" { key := some "items", index := some (-1) } 0
        [("items", .list [⟨some "a", false, none⟩, ⟨some "b", false, none⟩])]
      ≠ [("items", .list [⟨some "a", false, none⟩, ⟨some "b", false, none⟩])] := by
  decide

/-- Claim C5 (corrected): with the resolved key holding the list `l` and the
payload carrying index `i` — toggle-list-item and edit-list-item are no-ops
(bag returned unchanged, nothing thrown) for EVERY out-of-range `i`,
negative included; delete-list-item is a no-op only for `i ≥ length`, while
a negative `i` on a nonempty list follows JS `splice` semantics and removes
the element at position `length + i` (clamped at 0), shrinking the list. -/
theorem list_index_out_of_range (p : Payload) (now : Int) (d : Bag) (l : List Item)
    (i : Int)
    (hget : getKey d (findBestKey d (jsOrStr p.key "items") "array") = some (.list l))
    (hidx : p.index = some i) :
    (¬(0 ≤ i ∧ i < (l.length : Int)) →
        handleAppAction "TOGGLE_CHECKLIST_ITEM" p now d = d
      ∧ handleAppAction "EDIT_CHECKLIST_ITEM" p now d = d)
    ∧ ((l.length : Int) ≤ i → handleAppAction "DELETE_CHECKLIST_ITEM" p now d = d)
    ∧ (i < 0 → l ≠ [] →
        handleAppAction "DELETE_CHECKLIST_ITEM" p now d
          = jsSet d (findBestKey d (jsOrStr p.key "items") "array")
              (.list (l.eraseIdx ((l.length : Int) + i).toNat))
      ∧ (l.eraseIdx ((l.length : Int) + i).toNat).length = l.length - 1) := by
  refine ⟨fun hni => ⟨?_, ?_⟩, fun hge => ?_, fun hneg hne => ⟨?_, ?_⟩⟩
  · simp only [handleAppAction, toggleChecklistStep]
    simp [hget, hidx, hni]
  · simp only [handleAppAction, editChecklistStep]
    simp [hget, hidx, hni]
  · simp only [handleAppAction, deleteChecklistStep]
    simp only [String.reduceEq, if_false, if_true, reduceIte]
    rw [hget, hidx]
    have hsp : jsSplice1 l (some i) = l := by
      have h0 : ¬ i < 0 := by
        have : (0 : Int) ≤ l.length := by positivity
        omega
      simp only [jsSplice1, Option.getD, h0, if_false, reduceIte]
      have hmin : min i (l.length : Int) = (l.length : Int) := by omega
      rw [hmin]
      exact eraseIdx_of_len_le l _ (by simp)
    show jsSet d (findBestKey d (jsOrStr p.key "items") "array")
        (.list (jsSplice1 l (some i))) = d
    rw [hsp]
    exact jsSet_of_getKey_eq d _ _ hget
  · simp only [handleAppAction, deleteChecklistStep]
    simp only [String.reduceEq, if_false, if_true, reduceIte]
    rw [hget, hidx]
    have hsp : jsSplice1 l (some i)
        = l.eraseIdx ((l.length : Int) + i).toNat := by
      simp only [jsSplice1, Option.getD, hneg, if_true, reduceIte]
      congr 1
      omega
    show jsSet d (findBestKey d (jsOrStr p.key "items") "array")
        (.list (jsSplice1 l (some i)))
      = jsSet d (findBestKey d (jsOrStr p.key "items") "array")
        (.list (l.eraseIdx ((l.length : Int) + i).toNat))
    rw [hsp]
  · have hlt : ((l.length : Int) + i).toNat < l.length := by
      have hpos : 0 < l.length := List.length_pos.mpr hne
      omega
    rw [List.length_eraseIdx]
    simp [hlt]

/-- Claim C5, witness: concrete instances of the amended claim — index 5 on
a one-item list is a no-op for toggle, edit and delete; index `-1` on the
one-item list `[a]` removes its only element. -/
theorem list_index_out_of_range_witness :
    handleAppAction "TOGGLE_CHECKLIST_ITEM" { key := some "items", index := some 5 } 0
        [("items", .list [⟨some "a", false, none⟩])]
      = [("items", .list [⟨some "a", false, none⟩])]
    ∧ handleAppAction "EDIT_CHECKLIST_ITEM" { key := some "items", index := some 5 } 0
        [("items", .list [⟨some "a", false, none⟩])]
      = [("items", .list [⟨some "a", false, none⟩])]
    ∧ handleAppAction "DELETE_CHECKLIST_ITEM" { key := some "items", index := some 5 } 0
        [("items", .list [⟨some "a", false, none⟩])]
      = [("items", .list [⟨some "a", false, none⟩])]
    ∧ handleAppAction "DELETE_CHECKLIST_ITEM" { key := some "items", index := some (-1) } 0
        [("items", .list [⟨some "a", false, none⟩])]
      = jsSet [("items", .list [⟨some "a", false, none⟩])] "items" (.list []) := by
  have h5 := list_index_out_of_range { key := some "items", index := some 5 } 0
    [("items", .list [⟨some "a", false, none⟩])] [⟨some "a", false, none⟩] 5
    (by decide) rfl
  have hm1 := list_index_out_of_range { key := some "items", index := some (-1) } 0
    [("items", .list [⟨some "a", false, none⟩])] [⟨some "a", false, none⟩] (-1)
    (by decide) rfl
  obtain ⟨ht, he⟩ := h5.1 (by decide)
  refine ⟨ht, he, h5.2.1 (by decide), ?_⟩
  have := (hm1.2.2 (by decide) (by decide)).1
  simpa using this

/-! ## Claim C9: the frame effect of one tick -/

/-- Claim C9: a single tick changes only stored apps whose archetype is
`Regulator`, whose `is_running` entry is true (JS-truthy), and which have at
least one numeric-valued key; every other app is returned exactly unchanged.
In a changed app whose first numeric key (in enumeration order, whatever its
name) holds `n`: if `n > 0` only that key changes, decremented by 1; if
`n ≤ 0` only the `is_running` and `finished` entries change, set to `false`
and `true` respectively. -/
theorem tick_frame (app : App) :
    (¬(app.archetype = "Regulator"
        ∧ ((getKey app.data "is_running").getD .undefined).truthy = true
        ∧ (app.data.find? (fun q => q.2.isNumber)).isSome = true) →
      tickApp app = app)
    ∧ ∀ (k : String) (n : Int),
        app.archetype = "Regulator" →
        ((getKey app.data "is_running").getD .undefined).truthy = true →
        app.data.find? (fun q => q.2.isNumber) = some (k, .num n) →
        (0 < n → tickApp app = { app with data := jsSet app.data k (.num (n - 1)) })
      ∧ (n ≤ 0 → tickApp app
            = { app with data := (jsSet (jsSet app.data "is_running" (.bool false))
                  "finished" (.bool true)) }) := by
  constructor
  · intro h
    by_cases harch : app.archetype = "Regulator"
    · by_cases htr : ((getKey app.data "is_running").getD .undefined).truthy = true
      · have hf : app.data.find? (fun q => q.2.isNumber) = none := by
          rcases hfind : app.data.find? (fun q => q.2.isNumber) with _ | q
          · exact hfind
          · exact absurd ⟨harch, htr, by simp [hfind]⟩ h
        simp [tickApp, harch, htr, hf]
      · have htr' : ((getKey app.data "is_running").getD .undefined).truthy = false := by
          simpa using htr
        simp [tickApp, harch, htr']
    · simp [tickApp, harch]
  · intro k n harch htr hfind
    constructor
    · intro hpos
      simp [tickApp, harch, htr, hfind, hpos, jsAdd, sub_eq_add_neg]
    · intro hle
      have hnpos : ¬ (0 < n) := by omega
      simp [tickApp, harch, htr, hfind, hnpos, jsAdd]

/-- Claim C9, witness: a non-Regulator app and a stopped Regulator are
untouched by a tick; a running Regulator at `time` 10 only has `time`
decremented; a running Regulator at `time` 0 only has its flags flipped. -/
theorem tick_frame_witness :
    tickApp ⟨7, "Notes", "Drafter", [("text", .str "hi")]⟩
      = ⟨7, "Notes", "Drafter", [("text", .str "hi")]⟩
    ∧ tickApp ⟨8, "T", "Regulator",
        [("time", .num 3), ("is_running", .bool false), ("finished", .bool false)]⟩
      = ⟨8, "T", "Regulator",
        [("time", .num 3), ("is_running", .bool false), ("finished", .bool false)]⟩
    ∧ tickApp laundryTimer
      = { laundryTimer with data := jsSet laundryTimer.data "time" (.num 9) }
    ∧ tickApp ⟨9, "Z", "Regulator",
        [("time", .num 0), ("is_running", .bool true), ("finished", .bool false)]⟩
      = { (⟨9, "Z", "Regulator",
            [("time", .num 0), ("is_running", .bool true), ("finished", .bool false)]⟩ : App)
          with data := jsSet (jsSet
            [("time", .num 0), ("is_running", .bool true), ("finished", .bool false)]
            "is_running" (.bool false)) "finished" (.bool true) } := by
  refine ⟨(tick_frame _).1 (by decide), (tick_frame _).1 (by decide), ?_, ?_⟩
  · have h := ((tick_frame laundryTimer).2 "time" 10 rfl (by decide) (by decide)).1
      (by decide)
    simpa using h
  · have h := ((tick_frame ⟨9, "Z", "Regulator",
        [("time", .num 0), ("is_running", .bool true), ("finished", .bool false)]⟩).2
        "time" 0 rfl (by decide) (by decide)).2 (by decide)
    simpa using h

/-! ## Claim C1: the three-step self-healing key resolution -/

/-- Claim C1, counterexample: for `toggle-list-item` the third resolution
step does NOT create the requested key — toggling index 0 of `items` on an
empty data bag leaves the bag empty, with no `items` key created (the list
mutations other than add are guarded by `Array.isArray` and simply skip).
The same shape refutes delete- and edit-list-item. -/
theorem toggle_does_not_create_key_counterexample :
    handleAppAction "TOGGLE_CHECKLIST_ITEM" { key := some "items", index := some 0 } 0 []
      = []
    ∧ getKey (handleAppAction "TOGGLE_CHECKLIST_ITEM"
        { key := some "items", index := some 0 } 0 []) "items" = none := by
  decide

/-- Claim C1 (corrected): every key-locating operation resolves its target
through `findBestKey`'s three steps — requested key if present, else first
key of the operation's expected type, else the requested key back.  In the
third (no-match) case, however, only increment-count, reset-timer and
add-list-item materialise the requested key (as `amount||1` on top of the
numeric default 0, as `initialValue||0`, and as a one-item list grown from
the empty-list default, respectively); toggle-, delete- and edit-list-item
are no-ops that create nothing. -/
theorem self_healing_key_resolution :
    (∀ (d : Bag) (req ty : String),
        (isDef d req = true → findBestKey d req ty = req)
      ∧ (∀ (k : String) (v : JSValue), isDef d req = false →
            d.find? (fun q => typeMatches ty q.2) = some (k, v) → k ≠ "" →
            findBestKey d req ty = k)
      ∧ (isDef d req = false → d.find? (fun q => typeMatches ty q.2) = none →
            findBestKey d req ty = req))
    ∧ (∀ (p : Payload) (now : Int) (d : Bag),
        (getKey d (jsOrStr p.key "count") = none →
            d.find? (fun q => typeMatches "number" q.2) = none →
            handleAppAction "INCREMENT_COUNT" p now d
              = d ++ [(jsOrStr p.key "count", .num (jsOrInt p.amount 1))])
      ∧ (getKey d (jsOrStr p.key "time_remaining") = none →
            jsOrStr p.key "time_remaining" ≠ "is_running" →
            jsOrStr p.key "time_remaining" ≠ "finished" →
            d.find? (fun q => typeMatches "number" q.2) = none →
            handleAppAction "RESET_TIMER" p now d
              = (jsSet (jsSet d "is_running" (.bool false)) "finished" (.bool false))
                  ++ [(jsOrStr p.key "time_remaining", .num (jsOrInt p.initialValue 0))])
      ∧ (getKey d (jsOrStr p.key "items") = none →
            d.find? (fun q => typeMatches "array" q.2) = none →
            handleAppAction "ADD_CHECKLIST_ITEM" p now d
              = d ++ [(jsOrStr p.key "items",
                  .list [⟨some (jsOrStr p.value "New Item"), false, some now⟩])])
      ∧ (getKey d (jsOrStr p.key "items") = none →
            d.find? (fun q => typeMatches "array" q.2) = none →
            handleAppAction "TOGGLE_CHECKLIST_ITEM" p now d = d
          ∧ handleAppAction "DELETE_CHECKLIST_ITEM" p now d = d
          ∧ handleAppAction "EDIT_CHECKLIST_ITEM" p now d = d)) := by
  constructor
  · intro d req ty
    exact ⟨fun h => findBestKey_of_isDef d req ty h,
      fun k v h hf hk => findBestKey_fallback d req ty k v h hf hk,
      fun h hf => findBestKey_of_no_match d req ty h hf⟩
  · intro p now d
    refine ⟨fun hg hf => ?_, fun hg hir hfin hf => ?_, fun hg hf => ?_,
      fun hg hf => ⟨?_, ?_, ?_⟩⟩
    · -- INCREMENT_COUNT
      have hdef := isDef_of_getKey_none d _ hg
      have hkey := findBestKey_of_no_match d (jsOrStr p.key "count") "number" hdef hf
      simp only [handleAppAction, String.reduceEq, reduceIte, incrementStep]
      rw [hkey]
      simp only [hdef, Bool.false_eq_true, if_false, reduceIte,
        getKey_jsSet_self, Option.getD_some, jsSet_jsSet]
      rw [jsSet_of_getKey_none d _ _ hg]
      simp [jsToNum, JSValue.toNum, jsAdd]
    · -- RESET_TIMER
      set req := jsOrStr p.key "time_remaining" with hreq
      set d' := jsSet (jsSet d "is_running" (.bool false)) "finished" (.bool false)
        with hd'
      have hg' : getKey d' req = none := by
        rw [hd', getKey_jsSet_ne _ _ _ _ hfin, getKey_jsSet_ne _ _ _ _ hir]
        exact hg
      have hf' : d'.find? (fun q => typeMatches "number" q.2) = none := by
        rw [hd']
        refine find?_jsSet_none _ _ _ _ (by decide) ?_
        exact find?_jsSet_none _ _ _ _ (by decide) hf
      have hkey := findBestKey_of_no_match d' req "number"
        (isDef_of_getKey_none d' req hg') hf'
      simp only [handleAppAction, String.reduceEq, reduceIte, resetTimerStep]
      rw [← hd', hkey, if_neg (jsOrStr_ne_empty p.key "time_remaining" (by decide))]
      exact jsSet_of_getKey_none d' req _ hg'
    · -- ADD_CHECKLIST_ITEM
      have hdef := isDef_of_getKey_none d _ hg
      have hkey := findBestKey_of_no_match d (jsOrStr p.key "items") "array" hdef hf
      simp only [handleAppAction, String.reduceEq, reduceIte, addChecklistStep]
      rw [hkey]
      simp only [hg, Option.getD_none, JSValue.isList, Bool.false_eq_true, if_false,
        reduceIte, getKey_jsSet_self, jsSet_jsSet]
      rw [jsSet_of_getKey_none d _ _ hg]
      simp
    · have hdef := isDef_of_getKey_none d _ hg
      have hkey := findBestKey_of_no_match d (jsOrStr p.key "items") "array" hdef hf
      simp only [handleAppAction, String.reduceEq, reduceIte, toggleChecklistStep]
      rw [hkey]
      simp [hg]
    · have hdef := isDef_of_getKey_none d _ hg
      have hkey := findBestKey_of_no_match d (jsOrStr p.key "items") "array" hdef hf
      simp only [handleAppAction, String.reduceEq, reduceIte, deleteChecklistStep]
      rw [hkey]
      simp [hg]
    · have hdef := isDef_of_getKey_none d _ hg
      have hkey := findBestKey_of_no_match d (jsOrStr p.key "items") "array" hdef hf
      simp only [handleAppAction, String.reduceEq, reduceIte, editChecklistStep]
      rw [hkey]
      simp [hg]

/-- Claim C1, witness: concrete instances of each resolution step and of
each creation / no-creation behaviour. -/
theorem self_healing_key_resolution_witness :
    findBestKey [("x", .num 1)] "x" "number" = "x"
    ∧ findBestKey [("count", .num 5)] "missing" "number" = "count"
    ∧ findBestKey [] "foo" "number" = "foo"
    ∧ handleAppAction "INCREMENT_COUNT" { amount := some 3 } 0 []
        = [("count", .num 3)]
    ∧ handleAppAction "RESET_TIMER" { initialValue := some 10 } 0 []
        = [("is_running", .bool false), ("finished", .bool false),
           ("time_remaining", .num 10)]
    ∧ handleAppAction "ADD_CHECKLIST_ITEM" { value := some "Buy milk" } 42 []
        = [("items", .list [⟨some "Buy milk", false, some 42⟩])]
    ∧ handleAppAction "TOGGLE_CHECKLIST_ITEM" { index := some 0 } 0 [] = [] := by
  refine ⟨(self_healing_key_resolution.1 [("x", .num 1)] "x" "number").1 (by decide),
    (self_healing_key_resolution.1 [("count", .num 5)] "missing" "number").2.1
      "count" (.num 5) (by decide) (by decide) (by decide),
    (self_healing_key_resolution.1 [] "foo" "number").2.2 (by decide) (by decide),
    ?_, ?_, ?_, ?_⟩
  · have h := (self_healing_key_resolution.2 { amount := some 3 } 0 []).1
      (by decide) (by decide)
    simpa using h
  · have h := (self_healing_key_resolution.2 { initialValue := some 10 } 0 []).2.1
      (by decide) (by decide) (by decide) (by decide)
    simpa [jsSet, jsOrStr, jsOrInt] using h
  · have h := (self_healing_key_resolution.2 { value := some "Buy milk" } 42 []).2.2.1
      (by decide) (by decide)
    simpa using h
  · exact ((self_healing_key_resolution.2 { index := some 0 } 0 []).2.2.2
      (by decide) (by decide)).1

/-! ## Claim C6: normalization is idempotent -/

/-- Synonym folding of type tags is idempotent: the canonical tags
`ButtonRow` and `Text` are not themselves synonyms. -/
theorem fixType_idem (t : Option String) : fixType (fixType t) = fixType t := by
  simp only [fixType]
  split_ifs <;> simp_all

theorem moveButtons_buttons (p : BProps) : truthyO (moveButtons p).buttons = false := by
  by_cases h : truthyO p.buttons <;> simp_all [moveButtons, truthyO]

theorem moveBtns_btns (p : BProps) : truthyO (moveBtns p).btns = false := by
  by_cases h : truthyO p.btns <;> simp_all [moveBtns, truthyO]

theorem moveBtns_buttons (p : BProps) : (moveBtns p).buttons = p.buttons := by
  by_cases h : truthyO p.btns <;> simp [moveBtns, h]

theorem mirrorContent_buttons (p : BProps) : (mirrorContent p).buttons = p.buttons := by
  by_cases h : truthyO p.content && !truthyO p.text <;> simp [mirrorContent, h]

theorem mirrorContent_btns (p : BProps) : (mirrorContent p).btns = p.btns := by
  by_cases h : truthyO p.content && !truthyO p.text <;> simp [mirrorContent, h]

theorem mirrorText_buttons (p : BProps) : (mirrorText p).buttons = p.buttons := by
  by_cases h : truthyO p.text && !truthyO p.content <;> simp [mirrorText, h]

theorem mirrorText_btns (p : BProps) : (mirrorText p).btns = p.btns := by
  by_cases h : truthyO p.text && !truthyO p.content <;> simp [mirrorText, h]

theorem moveButtons_id_of (p : BProps) (h : truthyO p.buttons = false) :
    moveButtons p = p := by
  simp [moveButtons, h]

theorem moveBtns_id_of (p : BProps) (h : truthyO p.btns = false) :
    moveBtns p = p := by
  simp [moveBtns, h]

/-- After the two mirroring steps, `content` and `text` are equally truthy. -/
theorem mirror_pair_balanced (p : BProps) :
    truthyO (mirrorText (mirrorContent p)).content
      = truthyO (mirrorText (mirrorContent p)).text := by
  cases hc : truthyO p.content <;> cases ht : truthyO p.text <;>
    simp [mirrorContent, mirrorText, hc, ht]

theorem mirrorContent_id_of (p : BProps)
    (h : truthyO p.content = truthyO p.text) : mirrorContent p = p := by
  cases hc : truthyO p.content <;> rw [hc] at h <;>
    simp [mirrorContent, hc, ← h]

theorem mirrorText_id_of (p : BProps)
    (h : truthyO p.content = truthyO p.text) : mirrorText p = p := by
  cases hc : truthyO p.content <;> rw [hc] at h <;>
    simp [mirrorText, hc, ← h]

/-- Prop fixing is idempotent: after one pass `buttons`/`btns` are falsy and
`content`/`text` are either both truthy or both falsy, so every condition of
a second pass is false. -/
theorem fixProps_idem (p : BProps) : fixProps (fixProps p) = fixProps p := by
  have hbuttons : truthyO (fixProps p).buttons = false := by
    rw [fixProps, mirrorText_buttons, mirrorContent_buttons, moveBtns_buttons,
      moveButtons_buttons]
  have hbtns : truthyO (fixProps p).btns = false := by
    rw [fixProps, mirrorText_btns, mirrorContent_btns, moveBtns_btns]
  have hbal : truthyO (fixProps p).content = truthyO (fixProps p).text :=
    mirror_pair_balanced (moveBtns (moveButtons p))
  conv_lhs => rw [fixProps, moveButtons_id_of _ hbuttons, moveBtns_id_of _ hbtns,
    mirrorContent_id_of _ hbal, mirrorText_id_of _ hbal]

mutual
theorem normalizeBlueprint_idem_aux :
    (n : BNode) → normalizeBlueprint (normalizeBlueprint n) = normalizeBlueprint n
  | .null => rfl
  | .node t p c => by
      cases p <;> cases c <;>
        simp only [normalizeBlueprint, fixType_idem, fixProps_idem] <;>
        try rfl
      all_goals rw [normalizeChildren_idem_aux]
theorem normalizeChildren_idem_aux :
    (l : BNodeList) → normalizeChildren (normalizeChildren l) = normalizeChildren l
  | .nil => rfl
  | .cons h tl => by
      simp only [normalizeChildren]
      rw [normalizeBlueprint_idem_aux h, normalizeChildren_idem_aux tl]
end

/-- Claim C6: blueprint normalization is idempotent —
`normalizeBlueprint (normalizeBlueprint x) = normalizeBlueprint x` for every
blueprint tree `x` (nodes, missing props/children, and `null` entries
included). -/
theorem normalize_idempotent (x : BNode) :
    normalizeBlueprint (normalizeBlueprint x) = normalizeBlueprint x :=
  normalizeBlueprint_idem_aux x

/-! ## Claim C7: rendering of unrecognized block types -/

/-- Rendering a child list is an elementwise map (part_004 renderer). -/
theorem renderChildren_ofList (L : List BNode) :
    (renderChildren (BNodeList.ofList L)).toList = L.map renderComponent := by
  induction L with
  | nil => rfl
  | cons h tl ih => simp [BNodeList.ofList, renderChildren, ROutList.toList, ih]

/-- Rendering a block list is an elementwise map (src renderer). -/
theorem renderBlockList_ofList (fs : FormState) (L : List Block) :
    (renderBlockList fs (BlockList.ofList L)).toList = L.map (renderBlock fs) := by
  induction L with
  | nil => rfl
  | cons h tl ih => simp [BlockList.ofList, renderBlockList, VisualList.toList, ih]

/-- Claim C7, counterexample: in the `src/src/A2UIRenderer.js` renderer an
unrecognized tag does NOT render a visible diagnostic placeholder — the
registry lookup falls back to the ordinary `Text` component
(`COMPONENTS[block.t] || COMPONENTS.Text`), so a `Bogus` block with label
`"hello"` renders exactly the same paragraph as a genuine `Text` block with
that label: silently, as ordinary content, indistinguishable from it. -/
theorem unknown_tag_counterexample :
    renderBlock [] (.mk "Bogus" (some "hello") none none none none none none none none)
      = renderBlock [] (.mk "Text" (some "hello") none none none none none none none none)
    ∧ renderBlock [] (.mk "Bogus" (some "hello") none none none none none none none none)
      = .para false "hello" :=
  ⟨rfl, rfl⟩

/-- Claim C7 (corrected): the two renderers diverge on unknown tags.  In the
part_004 renderer every node whose type tag is outside the component
registry (or absent) renders the visible `Unknown Component` diagnostic, and
sibling rendering is an independent elementwise map, so the rest of the tree
proceeds normally.  In the `src/src/A2UIRenderer.js` renderer an unknown tag
instead falls back to the ordinary `Text` component — label rendered as
plain content, or nothing when there is no label — though siblings equally
render independently. -/
theorem renderComponent_unknown (t : String) (p : Option BProps) (c : Option BNodeList)
    (h : t ∉ componentRegistry) :
    renderComponent (.node (some t) p c) = .unknown (some t) := by
  unfold renderComponent
  show (if t ∈ componentRegistry then
      ROut.comp t p (match c with | some cs => some (renderChildren cs) | none => none)
    else ROut.unknown (some t)) = ROut.unknown (some t)
  rw [if_neg h]

theorem renderComponent_no_tag (p : Option BProps) (c : Option BNodeList) :
    renderComponent (.node none p c) = .unknown none := by
  unfold renderComponent
  rfl

theorem renderChildren_split (l1 l2 : List BNode) (bad : BNode) :
    (renderChildren (BNodeList.ofList (l1 ++ bad :: l2))).toList
      = l1.map renderComponent ++ renderComponent bad :: l2.map renderComponent := by
  rw [renderChildren_ofList]; simp

theorem renderBlock_fallback (fs : FormState) (b : Block) (h : b.t ∉ srcComponents) :
    renderBlock fs b = TextComp b.label b.variant := by
  obtain ⟨t, label, variant, title, icon, id, ph, value, onClick, children⟩ := b
  simp only [srcComponents, List.mem_cons, List.not_mem_nil, or_false, not_or] at h
  obtain ⟨h1, h2, h3, h4, h5, h6, h7, h8, h9, h10, h11⟩ := h
  simp only [Block.t] at h1 h2 h3 h4 h5 h6 h7 h8 h9 h10 h11
  unfold renderBlock
  show (if t = "Header" then Visual.header label icon
    else if t = "Card" then Visual.card title
      (match children with | some cs => some (renderBlockList fs cs) | none => none)
    else if t = "Grid" then Visual.grid
      (match children with | some cs => some (renderBlockList fs cs) | none => none)
    else if t = "Stat" then StatComp label value
    else if t = "Chart" then Visual.chart value
    else if t = "DataList" then Visual.dataList value none
    else if t = "Select" then Visual.select id label (lookupFS fs (orUndefinedKey id))
    else if t = "Input" then Visual.inputBox id label ph (lookupFS fs (orUndefinedKey id))
    else if t = "Btn" then Visual.btn label onClick variant icon
    else if t = "Text" then TextComp label variant
    else if t = "Divider" then Visual.divider
    else TextComp label variant)
    = TextComp label variant
  rw [if_neg h1, if_neg h2, if_neg h3, if_neg h4, if_neg h5, if_neg h6, if_neg h7,
    if_neg h8, if_neg h9, if_neg h10, if_neg h11]

theorem renderBlockList_split (fs : FormState) (l1 l2 : List Block) (bad : Block) :
    (renderBlockList fs (BlockList.ofList (l1 ++ bad :: l2))).toList
      = l1.map (renderBlock fs) ++ renderBlock fs bad :: l2.map (renderBlock fs) := by
  rw [renderBlockList_ofList]; simp

theorem unknown_tag_rendering :
    (∀ (t : String) (p : Option BProps) (c : Option BNodeList),
        t ∉ componentRegistry →
        renderComponent (.node (some t) p c) = .unknown (some t))
    ∧ (∀ (p : Option BProps) (c : Option BNodeList),
        renderComponent (.node none p c) = .unknown none)
    ∧ (∀ (l1 l2 : List BNode) (bad : BNode),
        (renderChildren (BNodeList.ofList (l1 ++ bad :: l2))).toList
          = l1.map renderComponent ++ renderComponent bad :: l2.map renderComponent)
    ∧ (∀ (fs : FormState) (b : Block), b.t ∉ srcComponents →
        renderBlock fs b = TextComp b.label b.variant)
    ∧ (∀ (fs : FormState) (l1 l2 : List Block) (bad : Block),
        (renderBlockList fs (BlockList.ofList (l1 ++ bad :: l2))).toList
          = l1.map (renderBlock fs) ++ renderBlock fs bad :: l2.map (renderBlock fs)) :=
  ⟨renderComponent_unknown, renderComponent_no_tag, renderChildren_split,
   renderBlock_fallback, renderBlockList_split⟩

/-- Claim C7, witness: a `Widget` node renders the diagnostic in the
part_004 renderer, independent of its one recognized sibling; in the src
renderer a `Widget` block falls back to `Text`. -/
theorem unknown_tag_rendering_witness :
    renderComponent (.node (some "Widget") none none) = .unknown (some "Widget")
    ∧ (renderChildren (BNodeList.ofList
          [.node (some "Text") none none, .node (some "Widget") none none])).toList
      = [renderComponent (.node (some "Text") none none),
         renderComponent (.node (some "Widget") none none)]
    ∧ renderBlock [] (.mk "Widget" (some "w") none none none none none none none none)
      = TextComp (some "w") none := by
  refine ⟨unknown_tag_rendering.1 "Widget" none none (by decide), ?_, ?_⟩
  · exact unknown_tag_rendering.2.2.1 [.node (some "Text") none none] []
      (.node (some "Widget") none none)
  · exact unknown_tag_rendering.2.2.2.1 []
      (.mk "Widget" (some "w") none none none none none none none none) (by decide)

end FluidOS
